import Mathlib

/-!
Host-side test driver `testproc.cpp` (procs/connectal/cpp).

A shallow embedding of `main` and `handle_signal` of `testproc.cpp`.

The driver is a straight-line sequence of calls on external collaborators
(`ProcControl`, `Verification`, `PerfMonitor`, `ExternalMMIO`, `Platform`,
`HTIF`).  Each call is recorded as an `Event`; a run of the process is the
list of events it performs, in program order, together with its exit code.
What the collaborators return is taken from a `World`.
-/

namespace Testproc

/-- The amount of RAM attached to the processor: `size_t ramSz = 64 * 1024 * 1024`. -/
def ramSz : Nat := 64 * 1024 * 1024

/-- The size of the ROM attached to the uncached region: `size_t romSz = 64 * 1024`. -/
def romSz : Nat := 64 * 1024

/-- The tandem verifier objects that `main` can hand to `Verification`. -/
inductive Verifier where
  | NullTandemVerifier
  | PrintTrace
  | SpikeTandemVerifier (htif_args : List String) (ramSz : Nat)
  deriving DecidableEq, Repr

/-- The observable actions of the process, one per call in the source. -/
inductive Event where
  /-- The call `printHelp(prog_name)`, which prints the usage line. -/
  | printHelp (prog : String)
  /-- The call `exit(code)`. -/
  | exit (code : Int)
  /-- The call `signal(SIGINT, &handle_signal)`. -/
  | signal_SIGINT
  /-- The call `setenv(name, value, 0)`, compiled only under `SIMULATION`. -/
  | setenv (name value : String)
  /-- Text written with `fprintf(stderr, ...)`. -/
  | stderr (text : String)
  /-- The statement `procControl = new ProcControl(...)`. -/
  | ProcControl_new
  /-- The call `procControl->configureVerificationPackets(mask, enable)`. -/
  | ProcControl_configureVerificationPackets (mask : Nat) (enable : Bool)
  /-- The expression `new NullTandemVerifier()`. -/
  | NullTandemVerifier_new
  /-- The expression `new PrintTrace()`. -/
  | PrintTrace_new
  /-- The expression `new SpikeTandemVerifier(htif_args, ramSz)`. -/
  | SpikeTandemVerifier_new (htif_args : List String) (ramSz : Nat)
  /-- The statement `verification = new Verification(..., v)`: the wrapper is
  constructed around `v` and the global handle is assigned. -/
  | Verification_new (v : Verifier)
  /-- The statement `perfMonitor = new PerfMonitor(...)`. -/
  | PerfMonitor_new
  /-- The statement `externalMMIO = new ExternalMMIO(...)`. -/
  | ExternalMMIO_new
  /-- The call `setClockFrequency(0, requestedFrequency, &actualFrequency)`. -/
  | setClockFrequency (requested : Int)
  /-- The `printf` of the clock line: requested and actual frequency, the
  status and the error number shown. -/
  | printf_clock (requested actual status err : Int)
  /-- The statement `platform = new Platform(..., ramBase, ramSz, romBase, romSz)`. -/
  | Platform_new (ramBase ramSz romBase romSz : Nat)
  /-- The call `platform->init()`. -/
  | Platform_init
  /-- The statement `htif = new HTIF(htif_args, procControl, platform)`. -/
  | HTIF_new (htif_args : List String)
  /-- The call `htif->run()`, from entry to return. -/
  | HTIF_run
  /-- The call `perfMonitor->setEnable(v)`. -/
  | PerfMonitor_setEnable (v : Nat)
  /-- The green `PASSED` banner on stderr. -/
  | banner_PASSED
  /-- The red `FAILED %d` banner on stderr. -/
  | banner_FAILED (result : Int)
  /-- The call `unlink(socket_name)`, compiled only under `SIMULATION`. -/
  | unlink (name : String)
  /-- The call `verification->printStatus()` on the wrapper holding `v`. -/
  | Verification_printStatus (v : Verifier)
  /-- The call `perfMonitor->printPerformance(path)`. -/
  | PerfMonitor_printPerformance (path : String)
  /-- The call `fflush(stdout)`. -/
  | fflush_stdout
  /-- The call `fflush(stderr)`. -/
  | fflush_stderr
  deriving DecidableEq, Repr

/-- What the environment and the collaborators answer during one run. -/
structure World where
  /-- Whether the driver was compiled with `SIMULATION` defined. -/
  SIMULATION : Bool
  /-- The value of `getpid()`. -/
  pid : Nat
  /-- The value of `requestedFrequency`, that is `1e9 / MainClockPeriod`
  converted to `long`; `MainClockPeriod` comes from `GeneratedTypes.h`. -/
  requestedFrequency : Int
  /-- The value `setClockFrequency` returns. -/
  status : Int
  /-- The value `setClockFrequency` stores in `actualFrequency`. -/
  actualFrequency : Int
  /-- The value of `errno` after `setClockFrequency`. -/
  errno : Int
  /-- The value `htif->run()` returns for an HTIF built from the given
  argument vector. -/
  HTIF_run : List String → Int

/-- A run of the process: the calls it made, in order, and the status it
ends with: the value `main` returns, or the argument of the `exit` call that
ends the run. -/
structure Run where
  trace : List Event
  exitCode : Int
  deriving DecidableEq, Repr

/-- The help test of `main`:
`argc > 0 && (strcmp(argv[0], "-h") == 0 || strcmp(argv[0], "--help") == 0)`. -/
def isHelp : List String → Bool
  | [] => false
  | a :: _ => a == "-h" || a == "--help"

/-- One flag test of `main`:
`if (argc > 0 && strcmp(argv[0], flag) == 0) { b = true; argc--; argv++; }`.
Returns the value of the boolean and the remaining arguments. -/
def stripFlag (flag : String) : List String → Bool × List String
  | [] => (false, [])
  | a :: rest => if a == flag then (true, rest) else (false, a :: rest)

/-- The loop `for (int i = 0; i < argc; i++)` that fills `htif_args` with
`push_back(argv[i])` and prints each argument followed by `", "`, or by a
newline after the last one.  Returns the vector and the text printed. -/
def htif_args_loop : List String → List String → String → List String × String
  | [], htif_args, out => (htif_args, out)
  | a :: rest, htif_args, out =>
      htif_args_loop rest (htif_args ++ [a])
        (out ++ a ++ (if rest.isEmpty then "\n" else ", "))

/-- The text of the warning `main` prints before it builds the Spike tandem
verifier. -/
def warningText : String :=
  "WARNING: Spike-based tandem verification is not fully tested for priv spec v1.9 yet\n"

/-- The banner `main` prints for the outcome of the run:
`if (result == 0) PASSED else FAILED result`. -/
def banner (result : Int) : Event :=
  if result = 0 then Event.banner_PASSED else Event.banner_FAILED result

/-- The mode flag parsing of `main`: first the `--just-run` test, then the
`--just-trace` test on what is left.  Returns `just_run`, `just_trace` and
the remaining arguments. -/
def parseFlags (argv : List String) : Bool × Bool × List String :=
  let p1 := stripFlag "--just-run" argv
  let p2 := stripFlag "--just-trace" p1.2
  (p1.1, p2.1, p2.2)

/-- The tandem verifier `main` selects:
`if (just_run) ... else if (just_trace) ... else ...`. -/
def selectVerifier (just_run just_trace : Bool) (htif_args : List String) : Verifier :=
  if just_run then Verifier.NullTandemVerifier
  else if just_trace then Verifier.PrintTrace
  else Verifier.SpikeTandemVerifier htif_args ramSz

/-- The body of `main` from `signal(SIGINT, &handle_signal)` to
`return result`, for the flags and remaining arguments left by the flag
parsing. -/
def mainBody (w : World) (just_run just_trace : Bool) (argv : List String) : Run :=
  let socket_name := "SOCK." ++ toString w.pid
  let fmt := htif_args_loop argv [] ""
  let htif_args := fmt.1
  let result := w.HTIF_run htif_args
  let v := selectVerifier just_run just_trace htif_args
  { trace :=
      [Event.signal_SIGINT]
      ++ (if w.SIMULATION then
            [Event.setenv "BLUESIM_SOCKET_NAME" socket_name,
             Event.setenv "SOFTWARE_SOCKET_NAME" socket_name]
          else [])
      ++ [Event.stderr "htif_args: ", Event.stderr fmt.2]
      ++ [Event.ProcControl_new]
      ++ (if just_run then
            [Event.ProcControl_configureVerificationPackets 0xFFFFFFFFFFFFFFFF false,
             Event.NullTandemVerifier_new,
             Event.Verification_new v]
          else if just_trace then
            [Event.PrintTrace_new,
             Event.Verification_new v]
          else
            [Event.stderr warningText,
             Event.SpikeTandemVerifier_new htif_args ramSz,
             Event.Verification_new v])
      ++ [Event.PerfMonitor_new,
          Event.ExternalMMIO_new,
          Event.setClockFrequency w.requestedFrequency,
          Event.printf_clock w.requestedFrequency w.actualFrequency w.status
            (if w.status ≠ 0 then w.errno else 0),
          Event.Platform_new 0x80000000 ramSz 0 romSz,
          Event.Platform_init,
          Event.HTIF_new htif_args,
          Event.HTIF_run,
          Event.PerfMonitor_setEnable 0,
          banner result]
      ++ (if w.SIMULATION then [Event.unlink socket_name] else [])
      ++ [Event.stderr "---- Verification results: ------------------------------------------\n",
          Event.Verification_printStatus v,
          Event.stderr "\n",
          Event.stderr "---- PerfMonitor results: -------------------------------------------\n",
          Event.PerfMonitor_printPerformance "verilator/Proc.perfmon.txt",
          Event.stderr "\n",
          Event.fflush_stdout,
          Event.fflush_stderr],
    exitCode := result }

/-- The function `main`, for program name `prog_name` (`argv[0]`) and the
arguments `argv` that follow it. -/
def main (w : World) (prog_name : String) (argv : List String) : Run :=
  if isHelp argv then
    { trace := [Event.printHelp prog_name, Event.exit 0], exitCode := 0 }
  else
    let p := parseFlags argv
    mainBody w p.1 p.2.1 p.2.2

/-- The value of the global `verification` after the given calls: `NULL`
(`none`) until a `verification = new Verification(...)` has run. -/
def verificationHandle : List Event → Option Verifier
  | [] => none
  | e :: rest =>
      match verificationHandle rest with
      | some v => some v
      | none =>
          match e with
          | Event.Verification_new v => some v
          | _ => none

/-- The function `handle_signal`, run with the given value of the global
`verification`. -/
def handle_signal (verification : Option Verifier) : Run :=
  { trace :=
      [Event.stderr "\n>> Ctrl-C: Exiting...\n"]
      ++ (match verification with
          | some v => [Event.Verification_printStatus v]
          | none => [])
      ++ [Event.exit 1],
    exitCode := 1 }

/-- A run of `main` in which SIGINT is delivered after the first `k` calls of
the uninterrupted run, the call `signal(SIGINT, &handle_signal)` being one of
them: those calls, then `handle_signal` on the value the global
`verification` has at that point.  Before `signal` has run, and on the help
path, which never calls it, `handle_signal` is not the action of SIGINT, and
no run is defined. -/
def interrupted (w : World) (prog_name : String) (argv : List String) (k : Nat)
    (_installed : Event.signal_SIGINT ∈ (main w prog_name argv).trace.take k) : Run :=
  let done := (main w prog_name argv).trace.take k
  let h := handle_signal (verificationHandle done)
  { trace := done ++ h.trace, exitCode := h.exitCode }

/-- The event is the construction of a tandem verifier object. -/
def Event.isVerifierNew : Event → Bool
  | Event.NullTandemVerifier_new => true
  | Event.PrintTrace_new => true
  | Event.SpikeTandemVerifier_new _ _ => true
  | _ => false

/-- The event is a call of `verification->printStatus()`. -/
def Event.isPrintStatus : Event → Bool
  | Event.Verification_printStatus _ => true
  | _ => false

/-- The event is a call on `perfMonitor` (`setEnable` or `printPerformance`). -/
def Event.isPerfMonitorCall : Event → Bool
  | Event.PerfMonitor_setEnable _ => true
  | Event.PerfMonitor_printPerformance _ => true
  | _ => false

/-- The event is a `perfMonitor->setEnable` call. -/
def Event.isSetEnable : Event → Bool
  | Event.PerfMonitor_setEnable _ => true
  | _ => false

/-- The event is a `perfMonitor->printPerformance` call. -/
def Event.isPrintPerformance : Event → Bool
  | Event.PerfMonitor_printPerformance _ => true
  | _ => false

/-- The event is the pass/fail banner. -/
def Event.isBanner : Event → Bool
  | Event.banner_PASSED => true
  | Event.banner_FAILED _ => true
  | _ => false

/-- The event is the construction of the `Verification` wrapper. -/
def Event.isVerificationNew : Event → Bool
  | Event.Verification_new _ => true
  | _ => false

/-- The event is the construction of the HTIF run driver. -/
def Event.isHTIFNew : Event → Bool
  | Event.HTIF_new _ => true
  | _ => false

/-- The event is a `configureVerificationPackets` call. -/
def Event.isConfigure : Event → Bool
  | Event.ProcControl_configureVerificationPackets _ _ => true
  | _ => false

/-- The event is the call `platform->init()`. -/
def Event.isPlatformInit : Event → Bool
  | Event.Platform_init => true
  | _ => false

/-- The event is the call `htif->run()`. -/
def Event.isHTIFRun : Event → Bool
  | Event.HTIF_run => true
  | _ => false

/-- The event is a call of `exit`. -/
def Event.isExit : Event → Bool
  | Event.exit _ => true
  | _ => false

/-- A world in which `htif->run()` always returns `r`: no `SIMULATION`
build, clock granted as requested. -/
def sampleWorld (r : Int) : World :=
  { SIMULATION := false, pid := 4242, requestedFrequency := 100000000,
    status := 0, actualFrequency := 100000000, errno := 0,
    HTIF_run := fun _ => r }

/-- Position of the first event of the trace satisfying `p` (the length of
the trace when there is none). -/
def firstAt (p : Event → Bool) (t : List Event) : Nat := t.findIdx p

/-- Number of events of the trace satisfying `p`. -/
def callCount (p : Event → Bool) (t : List Event) : Nat := t.countP p

/-- In the trace, `p` happens exactly once, `q` happens exactly once, and the
`p` event comes strictly before the `q` event. -/
def OnceBefore (p q : Event → Bool) (t : List Event) : Prop :=
  callCount p t = 1 ∧ callCount q t = 1 ∧ firstAt p t < firstAt q t

instance (p q : Event → Bool) (t : List Event) : Decidable (OnceBefore p q t) := by
  unfold OnceBefore; infer_instance

/-! ## Auxiliary facts about the argument parsing -/

theorem htif_args_loop_fst (argv acc : List String) (out : String) :
    (htif_args_loop argv acc out).1 = acc ++ argv := by
  induction argv generalizing acc out with
  | nil => simp [htif_args_loop]
  | cons a rest ih => simp [htif_args_loop, ih]

theorem htif_args_loop_nil_fst (argv : List String) (out : String) :
    (htif_args_loop argv [] out).1 = argv := by
  simp [htif_args_loop_fst]

theorem banner_cases (r : Int) :
    banner r = Event.banner_PASSED ∨ banner r = Event.banner_FAILED r := by
  unfold banner; split <;> simp

theorem isHelp_eq_false (argv : List String)
    (hh : argv.head? ≠ some "-h") (hH : argv.head? ≠ some "--help") :
    isHelp argv = false := by
  cases argv with
  | nil => rfl
  | cons a rest =>
    simp only [List.head?_cons, ne_eq, Option.some.injEq] at hh hH
    simp [isHelp, hh, hH]

theorem isHelp_eq_true (argv : List String)
    (h : argv.head? = some "-h" ∨ argv.head? = some "--help") :
    isHelp argv = true := by
  cases argv with
  | nil => simp at h
  | cons a rest =>
    simp only [List.head?_cons, Option.some.injEq] at h
    simpa [isHelp] using h

/-- The four ways the mode flag parsing can go. -/
theorem parseFlags_cases (argv : List String) :
    (∃ rest, argv = "--just-run" :: "--just-trace" :: rest ∧
        parseFlags argv = (true, true, rest)) ∨
    (∃ rest, argv = "--just-run" :: rest ∧ rest.head? ≠ some "--just-trace" ∧
        parseFlags argv = (true, false, rest)) ∨
    (∃ rest, argv = "--just-trace" :: rest ∧ parseFlags argv = (false, true, rest)) ∨
    (argv.head? ≠ some "--just-run" ∧ argv.head? ≠ some "--just-trace" ∧
        parseFlags argv = (false, false, argv)) := by
  cases argv with
  | nil => simp [parseFlags, stripFlag]
  | cons a rest =>
    by_cases h1 : a = "--just-run"
    · subst h1
      cases rest with
      | nil => simp [parseFlags, stripFlag]
      | cons b rest2 =>
        by_cases h2 : b = "--just-trace"
        · subst h2
          simp [parseFlags, stripFlag]
        · simp [parseFlags, stripFlag, h2]
    · by_cases h2 : a = "--just-trace"
      · subst h2
        simp [parseFlags, stripFlag]
      · simp [parseFlags, stripFlag, h1, h2]

theorem main_eq_mainBody (w : World) (prog_name : String) (argv : List String)
    (hh : argv.head? ≠ some "-h") (hH : argv.head? ≠ some "--help") :
    main w prog_name argv =
      mainBody w (parseFlags argv).1 (parseFlags argv).2.1 (parseFlags argv).2.2 := by
  simp [main, isHelp_eq_false argv hh hH]

/-! ## Facts about the body of `main`, for every outcome of the flag parsing -/

theorem mainBody_exitCode (w : World) (jr jt : Bool) (argv : List String) :
    (mainBody w jr jt argv).exitCode = w.HTIF_run argv := by
  simp [mainBody, htif_args_loop_nil_fst]

theorem mainBody_htif (w : World) (jr jt : Bool) (argv : List String) :
    callCount Event.isHTIFNew (mainBody w jr jt argv).trace = 1 ∧
    Event.HTIF_new argv ∈ (mainBody w jr jt argv).trace ∧
    callCount Event.isHTIFRun (mainBody w jr jt argv).trace = 1 ∧
    callCount Event.isExit (mainBody w jr jt argv).trace = 0 := by
  rcases banner_cases (w.HTIF_run argv) with hb | hb <;>
  cases jr <;> cases jt <;> cases hs : w.SIMULATION <;>
    simp [mainBody, callCount, hs, hb, htif_args_loop_nil_fst, List.countP_cons,
      Event.isHTIFNew, Event.isHTIFRun, Event.isExit]

theorem mainBody_verifier (w : World) (jr jt : Bool) (argv : List String) :
    callCount Event.isVerifierNew (mainBody w jr jt argv).trace = 1 ∧
    callCount Event.isVerificationNew (mainBody w jr jt argv).trace = 1 ∧
    Event.Verification_new (selectVerifier jr jt argv) ∈ (mainBody w jr jt argv).trace := by
  rcases banner_cases (w.HTIF_run argv) with hb | hb <;>
  cases jr <;> cases jt <;> cases hs : w.SIMULATION <;>
    simp [mainBody, callCount, hs, hb, htif_args_loop_nil_fst, List.countP_cons,
      Event.isVerifierNew, Event.isVerificationNew, selectVerifier]

theorem mainBody_just_run (w : World) (jt : Bool) (argv : List String) :
    Event.NullTandemVerifier_new ∈ (mainBody w true jt argv).trace ∧
    Event.PrintTrace_new ∉ (mainBody w true jt argv).trace ∧
    Event.Verification_new Verifier.NullTandemVerifier ∈ (mainBody w true jt argv).trace := by
  rcases banner_cases (w.HTIF_run argv) with hb | hb <;>
  cases jt <;> cases hs : w.SIMULATION <;>
    simp [mainBody, hs, hb, htif_args_loop_nil_fst, selectVerifier]

theorem mainBody_just_trace (w : World) (argv : List String) :
    Event.PrintTrace_new ∈ (mainBody w false true argv).trace ∧
    Event.NullTandemVerifier_new ∉ (mainBody w false true argv).trace ∧
    Event.Verification_new Verifier.PrintTrace ∈ (mainBody w false true argv).trace := by
  rcases banner_cases (w.HTIF_run argv) with hb | hb <;>
  cases hs : w.SIMULATION <;>
    simp [mainBody, hs, hb, htif_args_loop_nil_fst, selectVerifier]

theorem mainBody_tandem (w : World) (argv : List String) :
    Event.SpikeTandemVerifier_new argv ramSz ∈ (mainBody w false false argv).trace ∧
    Event.Verification_new (Verifier.SpikeTandemVerifier argv ramSz) ∈
      (mainBody w false false argv).trace := by
  rcases banner_cases (w.HTIF_run argv) with hb | hb <;>
  cases hs : w.SIMULATION <;>
    simp [mainBody, hs, hb, htif_args_loop_nil_fst, selectVerifier]

/-! ## The claims -/

/-- C1: when the first argument is not a help flag, `main` runs to its
`return` (it calls `exit` nowhere), builds exactly one HTIF, runs it once, and
the value `main` returns as exit code is the value `run()` returned for that
HTIF, whatever the mode flags and whatever `setClockFrequency` answered: two worlds
that agree on the outcome of `run()` give the same exit code. -/
theorem main_exitCode_eq_run_outcome (w : World) (prog_name : String) (argv : List String)
    (hh : argv.head? ≠ some "-h") (hH : argv.head? ≠ some "--help") :
    (∃ htif_args,
      callCount Event.isHTIFNew (main w prog_name argv).trace = 1 ∧
      Event.HTIF_new htif_args ∈ (main w prog_name argv).trace ∧
      callCount Event.isHTIFRun (main w prog_name argv).trace = 1 ∧
      callCount Event.isExit (main w prog_name argv).trace = 0 ∧
      (main w prog_name argv).exitCode = w.HTIF_run htif_args) ∧
    ∀ w2 : World, w2.HTIF_run = w.HTIF_run →
      (main w2 prog_name argv).exitCode = (main w prog_name argv).exitCode := by
  refine ⟨⟨(parseFlags argv).2.2, ?_⟩, ?_⟩
  · rw [main_eq_mainBody w prog_name argv hh hH]
    obtain ⟨h1, h2, h3, h4⟩ :=
      mainBody_htif w (parseFlags argv).1 (parseFlags argv).2.1 (parseFlags argv).2.2
    exact ⟨h1, h2, h3, h4, mainBody_exitCode _ _ _ _⟩
  · intro w2 hw
    rw [main_eq_mainBody w prog_name argv hh hH, main_eq_mainBody w2 prog_name argv hh hH,
      mainBody_exitCode, mainBody_exitCode, hw]

/-- Witness of C1: a failing run of `foo.elf` (outcome 7) in trace mode. -/
theorem main_exitCode_eq_run_outcome_witness :
    ["--just-trace", "foo.elf"].head? ≠ some "-h" ∧
    ["--just-trace", "foo.elf"].head? ≠ some "--help" ∧
    ((∃ htif_args,
      callCount Event.isHTIFNew
        (main (sampleWorld 7) "testproc" ["--just-trace", "foo.elf"]).trace = 1 ∧
      Event.HTIF_new htif_args ∈
        (main (sampleWorld 7) "testproc" ["--just-trace", "foo.elf"]).trace ∧
      callCount Event.isHTIFRun
        (main (sampleWorld 7) "testproc" ["--just-trace", "foo.elf"]).trace = 1 ∧
      callCount Event.isExit
        (main (sampleWorld 7) "testproc" ["--just-trace", "foo.elf"]).trace = 0 ∧
      (main (sampleWorld 7) "testproc" ["--just-trace", "foo.elf"]).exitCode =
        (sampleWorld 7).HTIF_run htif_args) ∧
    ∀ w2 : World, w2.HTIF_run = (sampleWorld 7).HTIF_run →
      (main w2 "testproc" ["--just-trace", "foo.elf"]).exitCode =
        (main (sampleWorld 7) "testproc" ["--just-trace", "foo.elf"]).exitCode) :=
  ⟨by decide, by decide,
    main_exitCode_eq_run_outcome (sampleWorld 7) "testproc" ["--just-trace", "foo.elf"]
      (by decide) (by decide)⟩

/-- C2: when the first argument is not a help flag, exactly one tandem
verifier is constructed and exactly one `Verification` wraps it; it is the
`NullTandemVerifier` when the first argument is `--just-run`, the `PrintTrace`
when the first argument is `--just-trace`, the `SpikeTandemVerifier`
otherwise.  With both flags as the first two arguments, in either order, the
verifier is the one of the flag that comes first. -/
theorem main_constructs_one_verifier (w : World) (prog_name : String) (argv : List String)
    (hh : argv.head? ≠ some "-h") (hH : argv.head? ≠ some "--help") :
    callCount Event.isVerifierNew (main w prog_name argv).trace = 1 ∧
    callCount Event.isVerificationNew (main w prog_name argv).trace = 1 ∧
    (argv.head? = some "--just-run" →
      Event.NullTandemVerifier_new ∈ (main w prog_name argv).trace ∧
      Event.Verification_new Verifier.NullTandemVerifier ∈ (main w prog_name argv).trace) ∧
    (argv.head? = some "--just-trace" →
      Event.PrintTrace_new ∈ (main w prog_name argv).trace ∧
      Event.Verification_new Verifier.PrintTrace ∈ (main w prog_name argv).trace) ∧
    (argv.head? ≠ some "--just-run" → argv.head? ≠ some "--just-trace" →
      Event.SpikeTandemVerifier_new argv ramSz ∈ (main w prog_name argv).trace ∧
      Event.Verification_new (Verifier.SpikeTandemVerifier argv ramSz) ∈
        (main w prog_name argv).trace) ∧
    (∀ rest, argv = "--just-run" :: "--just-trace" :: rest →
      Event.NullTandemVerifier_new ∈ (main w prog_name argv).trace ∧
      Event.PrintTrace_new ∉ (main w prog_name argv).trace) ∧
    (∀ rest, argv = "--just-trace" :: "--just-run" :: rest →
      Event.PrintTrace_new ∈ (main w prog_name argv).trace ∧
      Event.NullTandemVerifier_new ∉ (main w prog_name argv).trace) := by
  rw [main_eq_mainBody w prog_name argv hh hH]
  obtain ⟨c1, c2, -⟩ :=
    mainBody_verifier w (parseFlags argv).1 (parseFlags argv).2.1 (parseFlags argv).2.2
  refine ⟨c1, c2, ?_⟩
  rcases parseFlags_cases argv with ⟨rest, rfl, hp⟩ | ⟨rest, rfl, _, hp⟩ | ⟨rest, rfl, hp⟩ |
    ⟨h1, h2, hp⟩
  · rw [hp]
    obtain ⟨m1, m2, m3⟩ := mainBody_just_run w true rest
    simp [m1, m2, m3]
  · rw [hp]
    obtain ⟨m1, m2, m3⟩ := mainBody_just_run w false rest
    simp [m1, m3]
    intro _ _
    exact m2
  · rw [hp]
    obtain ⟨m1, m2, m3⟩ := mainBody_just_trace w rest
    simp [m1, m2, m3]
  · rw [hp]
    obtain ⟨m1, m2⟩ := mainBody_tandem w argv
    refine ⟨fun h => absurd h h1, fun h => absurd h h2, fun _ _ => ⟨m1, m2⟩, ?_, ?_⟩
    · rintro rest rfl
      simp at h1
    · rintro rest rfl
      simp at h2

/-- Witness of C2: `--just-run` followed by `--just-trace`. -/
theorem main_constructs_one_verifier_witness :
    ["--just-run", "--just-trace", "foo.elf"].head? ≠ some "-h" ∧
    ["--just-run", "--just-trace", "foo.elf"].head? ≠ some "--help" ∧
    (callCount Event.isVerifierNew
        (main (sampleWorld 0) "testproc" ["--just-run", "--just-trace", "foo.elf"]).trace = 1 ∧
    callCount Event.isVerificationNew
        (main (sampleWorld 0) "testproc" ["--just-run", "--just-trace", "foo.elf"]).trace = 1 ∧
    (["--just-run", "--just-trace", "foo.elf"].head? = some "--just-run" →
      Event.NullTandemVerifier_new ∈
        (main (sampleWorld 0) "testproc" ["--just-run", "--just-trace", "foo.elf"]).trace ∧
      Event.Verification_new Verifier.NullTandemVerifier ∈
        (main (sampleWorld 0) "testproc" ["--just-run", "--just-trace", "foo.elf"]).trace) ∧
    (["--just-run", "--just-trace", "foo.elf"].head? = some "--just-trace" →
      Event.PrintTrace_new ∈
        (main (sampleWorld 0) "testproc" ["--just-run", "--just-trace", "foo.elf"]).trace ∧
      Event.Verification_new Verifier.PrintTrace ∈
        (main (sampleWorld 0) "testproc" ["--just-run", "--just-trace", "foo.elf"]).trace) ∧
    (["--just-run", "--just-trace", "foo.elf"].head? ≠ some "--just-run" →
      ["--just-run", "--just-trace", "foo.elf"].head? ≠ some "--just-trace" →
      Event.SpikeTandemVerifier_new ["--just-run", "--just-trace", "foo.elf"] ramSz ∈
        (main (sampleWorld 0) "testproc" ["--just-run", "--just-trace", "foo.elf"]).trace ∧
      Event.Verification_new
          (Verifier.SpikeTandemVerifier ["--just-run", "--just-trace", "foo.elf"] ramSz) ∈
        (main (sampleWorld 0) "testproc" ["--just-run", "--just-trace", "foo.elf"]).trace) ∧
    (∀ rest, ["--just-run", "--just-trace", "foo.elf"] = "--just-run" :: "--just-trace" :: rest →
      Event.NullTandemVerifier_new ∈
        (main (sampleWorld 0) "testproc" ["--just-run", "--just-trace", "foo.elf"]).trace ∧
      Event.PrintTrace_new ∉
        (main (sampleWorld 0) "testproc" ["--just-run", "--just-trace", "foo.elf"]).trace) ∧
    (∀ rest, ["--just-run", "--just-trace", "foo.elf"] = "--just-trace" :: "--just-run" :: rest →
      Event.PrintTrace_new ∈
        (main (sampleWorld 0) "testproc" ["--just-run", "--just-trace", "foo.elf"]).trace ∧
      Event.NullTandemVerifier_new ∉
        (main (sampleWorld 0) "testproc" ["--just-run", "--just-trace", "foo.elf"]).trace)) :=
  ⟨by decide, by decide,
    main_constructs_one_verifier (sampleWorld 0) "testproc"
      ["--just-run", "--just-trace", "foo.elf"] (by decide) (by decide)⟩

/-- Counterexample to C3 as stated: with `--just-run --just-trace foo.elf`
the first argument is not a help flag, yet both mode flags are consumed: the
one HTIF is built from `foo.elf` alone, which is neither the whole argument
list nor the list without its first element. -/
theorem main_consumes_both_flags :
    ["--just-run", "--just-trace", "foo.elf"].head? ≠ some "-h" ∧
    ["--just-run", "--just-trace", "foo.elf"].head? ≠ some "--help" ∧
    callCount Event.isHTIFNew
      (main (sampleWorld 0) "testproc" ["--just-run", "--just-trace", "foo.elf"]).trace = 1 ∧
    Event.HTIF_new ["foo.elf"] ∈
      (main (sampleWorld 0) "testproc" ["--just-run", "--just-trace", "foo.elf"]).trace ∧
    Event.HTIF_new ["--just-run", "--just-trace", "foo.elf"] ∉
      (main (sampleWorld 0) "testproc" ["--just-run", "--just-trace", "foo.elf"]).trace ∧
    Event.HTIF_new ["--just-run", "--just-trace", "foo.elf"].tail ∉
      (main (sampleWorld 0) "testproc" ["--just-run", "--just-trace", "foo.elf"]).trace := by
  decide

/-- C3, amended: when the first argument is not a help flag, exactly one HTIF
is built, and its argument vector is what is left of the argument list after
a leading `--just-run`, and then a leading `--just-trace` of the remainder,
are removed: the list without its first two elements when these are
`--just-run`, `--just-trace` in this order; the list without its first
element when that is `--just-run` not followed by `--just-trace`, or is
`--just-trace`; the whole list otherwise. -/
theorem main_htif_args (w : World) (prog_name : String) (argv : List String)
    (hh : argv.head? ≠ some "-h") (hH : argv.head? ≠ some "--help") :
    callCount Event.isHTIFNew (main w prog_name argv).trace = 1 ∧
    (∀ rest, argv = "--just-run" :: "--just-trace" :: rest →
      Event.HTIF_new rest ∈ (main w prog_name argv).trace) ∧
    (∀ rest, argv = "--just-run" :: rest → rest.head? ≠ some "--just-trace" →
      Event.HTIF_new rest ∈ (main w prog_name argv).trace) ∧
    (∀ rest, argv = "--just-trace" :: rest →
      Event.HTIF_new rest ∈ (main w prog_name argv).trace) ∧
    (argv.head? ≠ some "--just-run" → argv.head? ≠ some "--just-trace" →
      Event.HTIF_new argv ∈ (main w prog_name argv).trace) := by
  rw [main_eq_mainBody w prog_name argv hh hH]
  obtain ⟨c1, c2, -, -⟩ :=
    mainBody_htif w (parseFlags argv).1 (parseFlags argv).2.1 (parseFlags argv).2.2
  refine ⟨c1, ?_⟩
  rcases parseFlags_cases argv with ⟨rest, rfl, hp⟩ | ⟨rest, rfl, hn, hp⟩ | ⟨rest, rfl, hp⟩ |
    ⟨h1, h2, hp⟩
  · rw [hp] at c2 ⊢
    simp only [hp] at c2
    refine ⟨?_, ?_, ?_, ?_⟩
    · intro r hr
      simp only [List.cons.injEq, true_and] at hr
      subst hr
      exact c2
    · intro r hr hn
      simp only [List.cons.injEq, true_and] at hr
      subst hr
      simp at hn
    · intro r hr
      simp at hr
    · intro h
      simp at h
  · rw [hp] at c2 ⊢
    simp only [hp] at c2
    refine ⟨?_, ?_, ?_, ?_⟩
    · intro r hr
      simp only [List.cons.injEq, true_and] at hr
      subst hr
      simp at hn
    · intro r hr _
      simp only [List.cons.injEq, true_and] at hr
      subst hr
      exact c2
    · intro r hr
      simp at hr
    · intro h
      simp at h
  · rw [hp] at c2 ⊢
    simp only [hp] at c2
    refine ⟨?_, ?_, ?_, ?_⟩
    · intro r hr
      simp at hr
    · intro r hr
      simp at hr
    · intro r hr
      simp only [List.cons.injEq, true_and] at hr
      subst hr
      exact c2
    · intro _ h
      simp at h
  · rw [hp] at c2 ⊢
    simp only [hp] at c2
    refine ⟨?_, ?_, ?_, fun _ _ => c2⟩
    · rintro r rfl
      simp at h1
    · rintro r rfl
      simp at h1
    · rintro r rfl
      simp at h2

/-- Witness of C3, amended: `--just-run --just-trace foo.elf`. -/
theorem main_htif_args_witness :
    ["--just-run", "--just-trace", "foo.elf"].head? ≠ some "-h" ∧
    ["--just-run", "--just-trace", "foo.elf"].head? ≠ some "--help" ∧
    (callCount Event.isHTIFNew
      (main (sampleWorld 0) "testproc" ["--just-run", "--just-trace", "foo.elf"]).trace = 1 ∧
    (∀ rest, ["--just-run", "--just-trace", "foo.elf"] = "--just-run" :: "--just-trace" :: rest →
      Event.HTIF_new rest ∈
        (main (sampleWorld 0) "testproc" ["--just-run", "--just-trace", "foo.elf"]).trace) ∧
    (∀ rest, ["--just-run", "--just-trace", "foo.elf"] = "--just-run" :: rest →
      rest.head? ≠ some "--just-trace" →
      Event.HTIF_new rest ∈
        (main (sampleWorld 0) "testproc" ["--just-run", "--just-trace", "foo.elf"]).trace) ∧
    (∀ rest, ["--just-run", "--just-trace", "foo.elf"] = "--just-trace" :: rest →
      Event.HTIF_new rest ∈
        (main (sampleWorld 0) "testproc" ["--just-run", "--just-trace", "foo.elf"]).trace) ∧
    (["--just-run", "--just-trace", "foo.elf"].head? ≠ some "--just-run" →
      ["--just-run", "--just-trace", "foo.elf"].head? ≠ some "--just-trace" →
      Event.HTIF_new ["--just-run", "--just-trace", "foo.elf"] ∈
        (main (sampleWorld 0) "testproc" ["--just-run", "--just-trace", "foo.elf"]).trace)) :=
  ⟨by decide, by decide,
    main_htif_args (sampleWorld 0) "testproc" ["--just-run", "--just-trace", "foo.elf"]
      (by decide) (by decide)⟩

/-- Counterexample to C4 as stated: in tandem mode (`foo.elf` alone) the
`SpikeTandemVerifier` is the sixth call of the run and `platform->init()` the
thirteenth, so `init()` does not come before the verifier is constructed. -/
theorem platform_init_after_verifier :
    ["foo.elf"].head? ≠ some "-h" ∧
    ["foo.elf"].head? ≠ some "--help" ∧
    (main (sampleWorld 0) "testproc" ["foo.elf"]).trace.get? 5 =
      some (Event.SpikeTandemVerifier_new ["foo.elf"] ramSz) ∧
    (main (sampleWorld 0) "testproc" ["foo.elf"]).trace.get? 12 = some Event.Platform_init ∧
    callCount Event.isVerifierNew (main (sampleWorld 0) "testproc" ["foo.elf"]).trace = 1 ∧
    callCount Event.isPlatformInit (main (sampleWorld 0) "testproc" ["foo.elf"]).trace = 1 ∧
    ¬ OnceBefore Event.isPlatformInit Event.isVerifierNew
        (main (sampleWorld 0) "testproc" ["foo.elf"]).trace := by
  decide

theorem mainBody_platform_init (w : World) (jr jt : Bool) (argv : List String) :
    OnceBefore Event.isPlatformInit Event.isHTIFNew (mainBody w jr jt argv).trace ∧
    OnceBefore Event.isVerifierNew Event.isPlatformInit (mainBody w jr jt argv).trace ∧
    OnceBefore Event.isVerificationNew Event.isPlatformInit (mainBody w jr jt argv).trace := by
  rcases banner_cases (w.HTIF_run argv) with hb | hb <;>
  cases jr <;> cases jt <;> cases hs : w.SIMULATION <;>
    simp [mainBody, OnceBefore, callCount, firstAt, hs, hb, htif_args_loop_nil_fst,
      List.findIdx_cons, List.countP_cons, Event.isPlatformInit, Event.isHTIFNew,
      Event.isVerifierNew, Event.isVerificationNew]

/-- C4, amended: in every run that gets past argument parsing,
`platform->init()` is called exactly once, before the HTIF run driver is
constructed, and after the tandem verifier and its `Verification` wrapper are
constructed; in tandem mode the verifier constructed before `init()` is the
`SpikeTandemVerifier` given the whole argument list and the RAM size. -/
theorem main_platform_init_order (w : World) (prog_name : String) (argv : List String)
    (hh : argv.head? ≠ some "-h") (hH : argv.head? ≠ some "--help") :
    OnceBefore Event.isPlatformInit Event.isHTIFNew (main w prog_name argv).trace ∧
    OnceBefore Event.isVerifierNew Event.isPlatformInit (main w prog_name argv).trace ∧
    OnceBefore Event.isVerificationNew Event.isPlatformInit (main w prog_name argv).trace ∧
    (argv.head? ≠ some "--just-run" → argv.head? ≠ some "--just-trace" →
      Event.SpikeTandemVerifier_new argv ramSz ∈ (main w prog_name argv).trace) := by
  rw [main_eq_mainBody w prog_name argv hh hH]
  obtain ⟨o1, o2, o3⟩ :=
    mainBody_platform_init w (parseFlags argv).1 (parseFlags argv).2.1 (parseFlags argv).2.2
  refine ⟨o1, o2, o3, ?_⟩
  intro h1 h2
  rcases parseFlags_cases argv with ⟨rest, rfl, hp⟩ | ⟨rest, rfl, _, hp⟩ | ⟨rest, rfl, hp⟩ |
    ⟨_, _, hp⟩
  · simp at h1
  · simp at h1
  · simp at h2
  · rw [hp]
    exact (mainBody_tandem w argv).1

/-- Witness of C4, amended: tandem mode on `foo.elf`. -/
theorem main_platform_init_order_witness :
    ["foo.elf"].head? ≠ some "-h" ∧
    ["foo.elf"].head? ≠ some "--help" ∧
    (OnceBefore Event.isPlatformInit Event.isHTIFNew
      (main (sampleWorld 0) "testproc" ["foo.elf"]).trace ∧
    OnceBefore Event.isVerifierNew Event.isPlatformInit
      (main (sampleWorld 0) "testproc" ["foo.elf"]).trace ∧
    OnceBefore Event.isVerificationNew Event.isPlatformInit
      (main (sampleWorld 0) "testproc" ["foo.elf"]).trace ∧
    (["foo.elf"].head? ≠ some "--just-run" → ["foo.elf"].head? ≠ some "--just-trace" →
      Event.SpikeTandemVerifier_new ["foo.elf"] ramSz ∈
        (main (sampleWorld 0) "testproc" ["foo.elf"]).trace)) :=
  ⟨by decide, by decide,
    main_platform_init_order (sampleWorld 0) "testproc" ["foo.elf"] (by decide) (by decide)⟩

/-! ### Interrupts -/

theorem verificationHandle_eq_none (t : List Event)
    (h : ∀ e ∈ t, Event.isVerificationNew e = false) : verificationHandle t = none := by
  induction t with
  | nil => rfl
  | cons a rest ih =>
    have hr : verificationHandle rest = none := ih (fun e he => h e (List.mem_cons_of_mem a he))
    have ha : Event.isVerificationNew a = false := h a (List.mem_cons_self a rest)
    cases a <;> simp [verificationHandle, hr, Event.isVerificationNew] at ha ⊢

theorem verificationHandle_isSome (t : List Event) (v : Verifier)
    (h : Event.Verification_new v ∈ t) : ∃ v2, verificationHandle t = some v2 := by
  induction t with
  | nil => simp at h
  | cons a rest ih =>
    cases hr : verificationHandle rest with
    | some v2 => exact ⟨v2, by simp [verificationHandle, hr]⟩
    | none =>
      rcases List.mem_cons.mp h with rfl | hmem
      · exact ⟨v, by simp [verificationHandle, hr]⟩
      · obtain ⟨v2, hv2⟩ := ih hmem
        rw [hr] at hv2
        cases hv2

/-- If the first `p` event of a trace comes before its first `q` event, every
initial segment that holds a `q` event holds a `p` event. -/
theorem exists_mem_take_of_firstAt_lt (p q : Event → Bool) (t : List Event) (k : Nat)
    (hlt : firstAt p t < firstAt q t) (hq : ∃ e ∈ t.take k, q e = true) :
    ∃ e ∈ t.take k, p e = true := by
  induction t generalizing k with
  | nil => simp at hq
  | cons a rest ih =>
    cases k with
    | zero => simp at hq
    | succ k =>
      by_cases hpa : p a = true
      · exact ⟨a, by simp, hpa⟩
      · by_cases hqa : q a = true
        · simp [firstAt, List.findIdx_cons, hpa, hqa] at hlt
        · simp only [firstAt, List.findIdx_cons, hpa, hqa, cond_false,
            Nat.add_lt_add_iff_right] at hlt
          obtain ⟨e, he, hqe⟩ := hq
          simp only [List.take_succ_cons, List.mem_cons] at he
          rcases he with rfl | he
          · exact absurd hqe hqa
          · obtain ⟨e2, he2, hp2⟩ := ih k hlt ⟨e, he, hqe⟩
            exact ⟨e2, by simp [he2], hp2⟩

theorem mainBody_printStatus (w : World) (jr jt : Bool) (argv : List String) :
    OnceBefore Event.isVerificationNew Event.isPrintStatus (mainBody w jr jt argv).trace := by
  rcases banner_cases (w.HTIF_run argv) with hb | hb <;>
  cases jr <;> cases jt <;> cases hs : w.SIMULATION <;>
    simp [mainBody, OnceBefore, callCount, firstAt, hs, hb, htif_args_loop_nil_fst,
      List.findIdx_cons, List.countP_cons, Event.isVerificationNew, Event.isPrintStatus]

theorem callCount_append (p : Event → Bool) (s t : List Event) :
    callCount p (s ++ t) = callCount p s + callCount p t := by
  simp [callCount, List.countP_append]

theorem callCount_eq_zero (p : Event → Bool) (t : List Event)
    (h : ∀ e ∈ t, p e = false) : callCount p t = 0 := by
  simp only [callCount, List.countP_eq_zero]
  intro e he
  simp [h e he]

/-- Counterexample to C5 as stated: SIGINT delivered right after the handler
is installed (after the first call of the run, `signal`) finds the global
`verification` still null, and the process exits with code 1 without any
`printStatus()` call. -/
theorem interrupt_before_verification_no_printStatus :
    ["foo.elf"].head? ≠ some "-h" ∧
    ["foo.elf"].head? ≠ some "--help" ∧
    ∃ hk : Event.signal_SIGINT ∈ (main (sampleWorld 0) "testproc" ["foo.elf"]).trace.take 1,
      (interrupted (sampleWorld 0) "testproc" ["foo.elf"] 1 hk).trace =
        [Event.signal_SIGINT, Event.stderr "\n>> Ctrl-C: Exiting...\n", Event.exit 1] ∧
      callCount Event.isPrintStatus
        (interrupted (sampleWorld 0) "testproc" ["foo.elf"] 1 hk).trace = 0 ∧
      (interrupted (sampleWorld 0) "testproc" ["foo.elf"] 1 hk).exitCode = 1 :=
  ⟨by decide, by decide, by decide, by decide, by decide, by decide⟩

/-- C5, amended: for every mode selection, `verification->printStatus()` is
invoked at least once before the process exits on normal completion, with any
run outcome, and on an interrupt delivered after the statement
`verification = new Verification(...)` has run; on an interrupt delivered
after the SIGINT handler is installed but before that statement, the process
exits without any `printStatus()` call. -/
theorem printStatus_before_exit (w : World) (prog_name : String) (argv : List String)
    (hh : argv.head? ≠ some "-h") (hH : argv.head? ≠ some "--help") :
    1 ≤ callCount Event.isPrintStatus (main w prog_name argv).trace ∧
    ∀ (k : Nat) (hk : Event.signal_SIGINT ∈ (main w prog_name argv).trace.take k),
      ((∃ v, Event.Verification_new v ∈ (main w prog_name argv).trace.take k) →
        1 ≤ callCount Event.isPrintStatus (interrupted w prog_name argv k hk).trace) ∧
      ((∀ v, Event.Verification_new v ∉ (main w prog_name argv).trace.take k) →
        callCount Event.isPrintStatus (interrupted w prog_name argv k hk).trace = 0) := by
  have hm := main_eq_mainBody w prog_name argv hh hH
  obtain ⟨-, c2, c3⟩ :=
    mainBody_printStatus w (parseFlags argv).1 (parseFlags argv).2.1 (parseFlags argv).2.2
  rw [← hm] at c2 c3
  refine ⟨by omega, ?_⟩
  intro k hk
  constructor
  · rintro ⟨v, hv⟩
    obtain ⟨v2, hv2⟩ := verificationHandle_isSome _ v hv
    simp only [interrupted, hv2, handle_signal, callCount_append]
    simp [callCount, Event.isPrintStatus]
  · intro hnone
    have hnew : ∀ e ∈ (main w prog_name argv).trace.take k,
        Event.isVerificationNew e = false := by
      intro e he
      cases e <;> first | rfl | exact absurd he (hnone _)
    have hpre : ∀ e ∈ (main w prog_name argv).trace.take k,
        Event.isPrintStatus e = false := by
      intro e he
      by_contra hne
      have hq : Event.isPrintStatus e = true := by simpa using hne
      obtain ⟨e2, he2, hp2⟩ := exists_mem_take_of_firstAt_lt Event.isVerificationNew
        Event.isPrintStatus _ k c3 ⟨e, he, hq⟩
      rw [hnew e2 he2] at hp2
      cases hp2
    simp only [interrupted, verificationHandle_eq_none _ hnew, handle_signal,
      callCount_append, callCount_eq_zero _ _ hpre]
    simp [callCount, Event.isPrintStatus]

/-- Witness of C5, amended: tandem mode on `foo.elf`. -/
theorem printStatus_before_exit_witness :
    ["foo.elf"].head? ≠ some "-h" ∧
    ["foo.elf"].head? ≠ some "--help" ∧
    (1 ≤ callCount Event.isPrintStatus (main (sampleWorld 3) "testproc" ["foo.elf"]).trace ∧
    ∀ (k : Nat)
        (hk : Event.signal_SIGINT ∈ (main (sampleWorld 3) "testproc" ["foo.elf"]).trace.take k),
      ((∃ v, Event.Verification_new v ∈
          (main (sampleWorld 3) "testproc" ["foo.elf"]).trace.take k) →
        1 ≤ callCount Event.isPrintStatus
          (interrupted (sampleWorld 3) "testproc" ["foo.elf"] k hk).trace) ∧
      ((∀ v, Event.Verification_new v ∉
          (main (sampleWorld 3) "testproc" ["foo.elf"]).trace.take k) →
        callCount Event.isPrintStatus
          (interrupted (sampleWorld 3) "testproc" ["foo.elf"] k hk).trace = 0)) :=
  ⟨by decide, by decide,
    printStatus_before_exit (sampleWorld 3) "testproc" ["foo.elf"] (by decide) (by decide)⟩

/-- C6: the interrupt handler, run with any value of the global
`verification`, ends in `exit(1)` and the process exit code is 1.  With a null
handle it prints the notice and exits, calling nothing on the handle; with a
non-null handle it calls `printStatus()` on it exactly once in between.  It
makes no call on `perfMonitor`.  An interrupt delivered at any point of a run
of `main` at which `signal(SIGINT, &handle_signal)` has been called, which
happens only when the first argument is not a help flag, exits with code 1,
also when the global `verification` is still null. -/
theorem handle_signal_exits_one :
    (handle_signal none).trace =
      [Event.stderr "\n>> Ctrl-C: Exiting...\n", Event.exit 1] ∧
    (∀ v : Verifier, (handle_signal (some v)).trace =
      [Event.stderr "\n>> Ctrl-C: Exiting...\n", Event.Verification_printStatus v,
        Event.exit 1]) ∧
    (∀ verification : Option Verifier,
      (handle_signal verification).exitCode = 1 ∧
      (handle_signal verification).trace.getLast? = some (Event.exit 1) ∧
      callCount Event.isExit (handle_signal verification).trace = 1 ∧
      callCount Event.isPrintStatus (handle_signal verification).trace =
        (if verification.isSome then 1 else 0) ∧
      callCount Event.isPerfMonitorCall (handle_signal verification).trace = 0) ∧
    (∀ (w : World) (prog_name : String) (argv : List String) (k : Nat)
        (hk : Event.signal_SIGINT ∈ (main w prog_name argv).trace.take k),
      argv.head? ≠ some "-h" ∧ argv.head? ≠ some "--help" ∧
      (interrupted w prog_name argv k hk).exitCode = 1) := by
  refine ⟨rfl, fun _ => rfl, ?_, ?_⟩
  · intro verification
    cases verification <;>
      simp [handle_signal, callCount, List.countP_cons, Event.isExit, Event.isPrintStatus,
        Event.isPerfMonitorCall]
  · intro w prog_name argv k hk
    have hnot : ¬ (argv.head? = some "-h" ∨ argv.head? = some "--help") := by
      intro h
      have hmem := List.mem_of_mem_take hk
      simp [main, isHelp_eq_true argv h] at hmem
    exact ⟨fun e => hnot (Or.inl e), fun e => hnot (Or.inr e), rfl⟩

/-- Witness of C6: SIGINT right after `signal` in the run of `foo.elf`, when
the global `verification` is still null. -/
theorem handle_signal_exits_one_witness :
    ∃ hk : Event.signal_SIGINT ∈ (main (sampleWorld 0) "testproc" ["foo.elf"]).trace.take 1,
      verificationHandle ((main (sampleWorld 0) "testproc" ["foo.elf"]).trace.take 1) = none ∧
      (["foo.elf"].head? ≠ some "-h" ∧ ["foo.elf"].head? ≠ some "--help" ∧
        (interrupted (sampleWorld 0) "testproc" ["foo.elf"] 1 hk).exitCode = 1) :=
  ⟨by decide, by decide,
    handle_signal_exits_one.2.2.2 (sampleWorld 0) "testproc" ["foo.elf"] 1 (by decide)⟩

theorem mainBody_configure (w : World) (jt : Bool) (argv : List String) :
    callCount Event.isConfigure (mainBody w true jt argv).trace = 1 ∧
    Event.ProcControl_configureVerificationPackets 0xFFFFFFFFFFFFFFFF false ∈
      (mainBody w true jt argv).trace ∧
    OnceBefore Event.isConfigure Event.isVerifierNew (mainBody w true jt argv).trace ∧
    OnceBefore Event.isConfigure Event.isVerificationNew (mainBody w true jt argv).trace := by
  rcases banner_cases (w.HTIF_run argv) with hb | hb <;>
  cases jt <;> cases hs : w.SIMULATION <;>
    simp [mainBody, OnceBefore, callCount, firstAt, hs, hb, htif_args_loop_nil_fst,
      List.findIdx_cons, List.countP_cons, Event.isConfigure, Event.isVerifierNew,
      Event.isVerificationNew]

/-- C7: when the first argument is `--just-run`,
`configureVerificationPackets` is called exactly once, with the all-ones
64-bit mask and `false`, before the `NullTandemVerifier` and before its
`Verification` wrapper are constructed; the verifier is the
`NullTandemVerifier`, and the exit code is the outcome of `run()` on the
HTIF that was built, which for `--just-run` followed by workload arguments is
the HTIF of these arguments. -/
theorem just_run_configures_before_null_verifier (w : World) (prog_name : String)
    (argv : List String) (hjr : argv.head? = some "--just-run") :
    callCount Event.isConfigure (main w prog_name argv).trace = 1 ∧
    Event.ProcControl_configureVerificationPackets 0xFFFFFFFFFFFFFFFF false ∈
      (main w prog_name argv).trace ∧
    OnceBefore Event.isConfigure Event.isVerifierNew (main w prog_name argv).trace ∧
    OnceBefore Event.isConfigure Event.isVerificationNew (main w prog_name argv).trace ∧
    Event.NullTandemVerifier_new ∈ (main w prog_name argv).trace ∧
    Event.Verification_new Verifier.NullTandemVerifier ∈ (main w prog_name argv).trace ∧
    (∃ htif_args, Event.HTIF_new htif_args ∈ (main w prog_name argv).trace ∧
      (main w prog_name argv).exitCode = w.HTIF_run htif_args) ∧
    (∀ rest, argv = "--just-run" :: rest → rest.head? ≠ some "--just-trace" →
      Event.HTIF_new rest ∈ (main w prog_name argv).trace ∧
      (main w prog_name argv).exitCode = w.HTIF_run rest) := by
  have hh : argv.head? ≠ some "-h" := by rw [hjr]; decide
  have hH : argv.head? ≠ some "--help" := by rw [hjr]; decide
  rw [main_eq_mainBody w prog_name argv hh hH]
  rcases parseFlags_cases argv with ⟨rest, rfl, hp⟩ | ⟨rest, rfl, hn, hp⟩ | ⟨rest, rfl, hp⟩ |
    ⟨h1, _, _⟩
  · rw [hp]
    obtain ⟨a1, a2, a3, a4⟩ := mainBody_configure w true rest
    obtain ⟨b1, -, b3⟩ := mainBody_just_run w true rest
    refine ⟨a1, a2, a3, a4, b1, b3,
      ⟨rest, (mainBody_htif w true true rest).2.1, mainBody_exitCode _ _ _ _⟩, ?_⟩
    intro r hr hnr
    simp only [List.cons.injEq, true_and] at hr
    subst hr
    simp at hnr
  · rw [hp]
    obtain ⟨a1, a2, a3, a4⟩ := mainBody_configure w false rest
    obtain ⟨b1, -, b3⟩ := mainBody_just_run w false rest
    refine ⟨a1, a2, a3, a4, b1, b3,
      ⟨rest, (mainBody_htif w true false rest).2.1, mainBody_exitCode _ _ _ _⟩, ?_⟩
    intro r hr _
    simp only [List.cons.injEq, true_and] at hr
    subst hr
    exact ⟨(mainBody_htif w true false rest).2.1, mainBody_exitCode _ _ _ _⟩
  · simp at hjr
  · exact absurd hjr h1

/-- Witness of C7: the invocation `--just-run foo.elf`. -/
theorem just_run_configures_before_null_verifier_witness :
    ["--just-run", "foo.elf"].head? = some "--just-run" ∧
    (callCount Event.isConfigure
      (main (sampleWorld 5) "testproc" ["--just-run", "foo.elf"]).trace = 1 ∧
    Event.ProcControl_configureVerificationPackets 0xFFFFFFFFFFFFFFFF false ∈
      (main (sampleWorld 5) "testproc" ["--just-run", "foo.elf"]).trace ∧
    OnceBefore Event.isConfigure Event.isVerifierNew
      (main (sampleWorld 5) "testproc" ["--just-run", "foo.elf"]).trace ∧
    OnceBefore Event.isConfigure Event.isVerificationNew
      (main (sampleWorld 5) "testproc" ["--just-run", "foo.elf"]).trace ∧
    Event.NullTandemVerifier_new ∈
      (main (sampleWorld 5) "testproc" ["--just-run", "foo.elf"]).trace ∧
    Event.Verification_new Verifier.NullTandemVerifier ∈
      (main (sampleWorld 5) "testproc" ["--just-run", "foo.elf"]).trace ∧
    (∃ htif_args, Event.HTIF_new htif_args ∈
        (main (sampleWorld 5) "testproc" ["--just-run", "foo.elf"]).trace ∧
      (main (sampleWorld 5) "testproc" ["--just-run", "foo.elf"]).exitCode =
        (sampleWorld 5).HTIF_run htif_args) ∧
    (∀ rest, ["--just-run", "foo.elf"] = "--just-run" :: rest →
      rest.head? ≠ some "--just-trace" →
      Event.HTIF_new rest ∈ (main (sampleWorld 5) "testproc" ["--just-run", "foo.elf"]).trace ∧
      (main (sampleWorld 5) "testproc" ["--just-run", "foo.elf"]).exitCode =
        (sampleWorld 5).HTIF_run rest)) :=
  ⟨by decide,
    just_run_configures_before_null_verifier (sampleWorld 5) "testproc"
      ["--just-run", "foo.elf"] (by decide)⟩

theorem mainBody_teardown (w : World) (jr jt : Bool) (argv : List String) :
    OnceBefore Event.isHTIFRun Event.isSetEnable (mainBody w jr jt argv).trace ∧
    Event.PerfMonitor_setEnable 0 ∈ (mainBody w jr jt argv).trace ∧
    OnceBefore Event.isSetEnable Event.isPrintPerformance (mainBody w jr jt argv).trace ∧
    OnceBefore Event.isBanner Event.isPrintStatus (mainBody w jr jt argv).trace ∧
    OnceBefore Event.isPrintStatus Event.isPrintPerformance (mainBody w jr jt argv).trace := by
  rcases banner_cases (w.HTIF_run argv) with hb | hb <;>
  cases jr <;> cases jt <;> cases hs : w.SIMULATION <;>
    simp [mainBody, OnceBefore, callCount, firstAt, hs, hb, htif_args_loop_nil_fst,
      List.findIdx_cons, List.countP_cons, Event.isHTIFRun, Event.isSetEnable,
      Event.isPrintPerformance, Event.isBanner, Event.isPrintStatus]

theorem mainBody_banner (w : World) (jr jt : Bool) (argv : List String) :
    (Event.banner_PASSED ∈ (mainBody w jr jt argv).trace ↔ w.HTIF_run argv = 0) ∧
    (w.HTIF_run argv ≠ 0 →
      Event.banner_FAILED (w.HTIF_run argv) ∈ (mainBody w jr jt argv).trace) := by
  by_cases hr : w.HTIF_run argv = 0 <;>
  cases jr <;> cases jt <;> cases hs : w.SIMULATION <;>
    simp [mainBody, banner, hs, hr, htif_args_loop_nil_fst, selectVerifier]

/-- C8: in every run that completes normally, whatever the outcome,
`perfMonitor->setEnable(0)` is called exactly once, after `htif->run()` and
before `printPerformance`; the banner is printed once, then
`verification->printStatus()` is called once, then `printPerformance` once;
the banner is `PASSED` exactly when the outcome (the exit code) is 0, and
`FAILED` with the outcome otherwise. -/
theorem main_teardown_order (w : World) (prog_name : String) (argv : List String)
    (hh : argv.head? ≠ some "-h") (hH : argv.head? ≠ some "--help") :
    OnceBefore Event.isHTIFRun Event.isSetEnable (main w prog_name argv).trace ∧
    Event.PerfMonitor_setEnable 0 ∈ (main w prog_name argv).trace ∧
    OnceBefore Event.isSetEnable Event.isPrintPerformance (main w prog_name argv).trace ∧
    OnceBefore Event.isBanner Event.isPrintStatus (main w prog_name argv).trace ∧
    OnceBefore Event.isPrintStatus Event.isPrintPerformance (main w prog_name argv).trace ∧
    (Event.banner_PASSED ∈ (main w prog_name argv).trace ↔
      (main w prog_name argv).exitCode = 0) ∧
    ((main w prog_name argv).exitCode ≠ 0 →
      Event.banner_FAILED (main w prog_name argv).exitCode ∈ (main w prog_name argv).trace) := by
  rw [main_eq_mainBody w prog_name argv hh hH, mainBody_exitCode]
  obtain ⟨t1, t2, t3, t4, t5⟩ :=
    mainBody_teardown w (parseFlags argv).1 (parseFlags argv).2.1 (parseFlags argv).2.2
  obtain ⟨b1, b2⟩ :=
    mainBody_banner w (parseFlags argv).1 (parseFlags argv).2.1 (parseFlags argv).2.2
  exact ⟨t1, t2, t3, t4, t5, b1, b2⟩

/-- Witness of C8: a failing run (outcome 3) of `foo.elf` in tandem mode. -/
theorem main_teardown_order_witness :
    ["foo.elf"].head? ≠ some "-h" ∧
    ["foo.elf"].head? ≠ some "--help" ∧
    (OnceBefore Event.isHTIFRun Event.isSetEnable
      (main (sampleWorld 3) "testproc" ["foo.elf"]).trace ∧
    Event.PerfMonitor_setEnable 0 ∈ (main (sampleWorld 3) "testproc" ["foo.elf"]).trace ∧
    OnceBefore Event.isSetEnable Event.isPrintPerformance
      (main (sampleWorld 3) "testproc" ["foo.elf"]).trace ∧
    OnceBefore Event.isBanner Event.isPrintStatus
      (main (sampleWorld 3) "testproc" ["foo.elf"]).trace ∧
    OnceBefore Event.isPrintStatus Event.isPrintPerformance
      (main (sampleWorld 3) "testproc" ["foo.elf"]).trace ∧
    (Event.banner_PASSED ∈ (main (sampleWorld 3) "testproc" ["foo.elf"]).trace ↔
      (main (sampleWorld 3) "testproc" ["foo.elf"]).exitCode = 0) ∧
    ((main (sampleWorld 3) "testproc" ["foo.elf"]).exitCode ≠ 0 →
      Event.banner_FAILED (main (sampleWorld 3) "testproc" ["foo.elf"]).exitCode ∈
        (main (sampleWorld 3) "testproc" ["foo.elf"]).trace)) :=
  ⟨by decide, by decide,
    main_teardown_order (sampleWorld 3) "testproc" ["foo.elf"] (by decide) (by decide)⟩

theorem mainBody_no_help (w : World) (jr jt : Bool) (argv : List String) :
    (mainBody w jr jt argv).trace.head? = some Event.signal_SIGINT ∧
    (∀ p, Event.printHelp p ∉ (mainBody w jr jt argv).trace) := by
  rcases banner_cases (w.HTIF_run argv) with hb | hb <;>
  cases jr <;> cases jt <;> cases hs : w.SIMULATION <;>
    simp [mainBody, hs, hb, htif_args_loop_nil_fst]

/-- C10: the help path is taken exactly when the first argument is `-h` or
`--help`.  Then the run is `printHelp` followed by `exit(0)` and nothing
else: no signal handler, no collaborator, no workload run.  Otherwise the run
starts by installing the signal handler, never prints the help, never calls
`exit`, runs the workload once, and the HTIF argument vector is the argument
list without at most two leading elements, each of them `--just-run` or
`--just-trace`: a help flag at a later position stays in the vector. -/
theorem help_exactly_when_first (w : World) (prog_name : String) (argv : List String) :
    ((argv.head? = some "-h" ∨ argv.head? = some "--help") →
      main w prog_name argv =
        { trace := [Event.printHelp prog_name, Event.exit 0], exitCode := 0 }) ∧
    (¬ (argv.head? = some "-h" ∨ argv.head? = some "--help") →
      (main w prog_name argv).trace.head? = some Event.signal_SIGINT ∧
      (∀ p, Event.printHelp p ∉ (main w prog_name argv).trace) ∧
      callCount Event.isExit (main w prog_name argv).trace = 0 ∧
      callCount Event.isHTIFRun (main w prog_name argv).trace = 1 ∧
      callCount Event.isHTIFNew (main w prog_name argv).trace = 1 ∧
      ∃ k, k ≤ 2 ∧ Event.HTIF_new (argv.drop k) ∈ (main w prog_name argv).trace ∧
        ∀ x ∈ argv.take k, x = "--just-run" ∨ x = "--just-trace") := by
  constructor
  · intro h
    simp [main, isHelp_eq_true argv h]
  · intro h
    have hh : argv.head? ≠ some "-h" := fun e => h (Or.inl e)
    have hH : argv.head? ≠ some "--help" := fun e => h (Or.inr e)
    rw [main_eq_mainBody w prog_name argv hh hH]
    obtain ⟨n1, n2⟩ :=
      mainBody_no_help w (parseFlags argv).1 (parseFlags argv).2.1 (parseFlags argv).2.2
    obtain ⟨c1, c2, c3, c4⟩ :=
      mainBody_htif w (parseFlags argv).1 (parseFlags argv).2.1 (parseFlags argv).2.2
    refine ⟨n1, n2, c4, c3, c1, ?_⟩
    rcases parseFlags_cases argv with ⟨rest, rfl, hp⟩ | ⟨rest, rfl, _, hp⟩ | ⟨rest, rfl, hp⟩ |
      ⟨_, _, hp⟩
    · rw [hp] at c2 ⊢
      exact ⟨2, le_refl 2, by simpa using c2, by simp⟩
    · rw [hp] at c2 ⊢
      exact ⟨1, by omega, by simpa using c2, by simp⟩
    · rw [hp] at c2 ⊢
      exact ⟨1, by omega, by simpa using c2, by simp⟩
    · rw [hp] at c2 ⊢
      exact ⟨0, by omega, by simpa using c2, by simp⟩

/-- Witness of C10: a help flag after `--just-run` is a workload argument. -/
theorem help_exactly_when_first_witness :
    ¬ (["--just-run", "--help", "foo.elf"].head? = some "-h" ∨
        ["--just-run", "--help", "foo.elf"].head? = some "--help") ∧
    Event.HTIF_new ["--help", "foo.elf"] ∈
      (main (sampleWorld 0) "testproc" ["--just-run", "--help", "foo.elf"]).trace ∧
    (((["--just-run", "--help", "foo.elf"].head? = some "-h" ∨
        ["--just-run", "--help", "foo.elf"].head? = some "--help") →
      main (sampleWorld 0) "testproc" ["--just-run", "--help", "foo.elf"] =
        { trace := [Event.printHelp "testproc", Event.exit 0], exitCode := 0 }) ∧
    (¬ (["--just-run", "--help", "foo.elf"].head? = some "-h" ∨
        ["--just-run", "--help", "foo.elf"].head? = some "--help") →
      (main (sampleWorld 0) "testproc" ["--just-run", "--help", "foo.elf"]).trace.head? =
        some Event.signal_SIGINT ∧
      (∀ p, Event.printHelp p ∉
        (main (sampleWorld 0) "testproc" ["--just-run", "--help", "foo.elf"]).trace) ∧
      callCount Event.isExit
        (main (sampleWorld 0) "testproc" ["--just-run", "--help", "foo.elf"]).trace = 0 ∧
      callCount Event.isHTIFRun
        (main (sampleWorld 0) "testproc" ["--just-run", "--help", "foo.elf"]).trace = 1 ∧
      callCount Event.isHTIFNew
        (main (sampleWorld 0) "testproc" ["--just-run", "--help", "foo.elf"]).trace = 1 ∧
      ∃ k, k ≤ 2 ∧ Event.HTIF_new (["--just-run", "--help", "foo.elf"].drop k) ∈
          (main (sampleWorld 0) "testproc" ["--just-run", "--help", "foo.elf"]).trace ∧
        ∀ x ∈ ["--just-run", "--help", "foo.elf"].take k,
          x = "--just-run" ∨ x = "--just-trace")) :=
  ⟨by decide, by decide,
    help_exactly_when_first (sampleWorld 0) "testproc" ["--just-run", "--help", "foo.elf"]⟩

end Testproc
